import Mathlib

/-!
Verification of the MCP tool-execution status protocol.

Controller side: `useMcpToolTool` (src/unnamed/part_000) validates a tool-use
block, asks for approval, calls the remote MCP tool and posts
`mcpExecutionStatus` events to the webview.

Observer side: the `McpExecution` component
(src/webview-ui/src/components/chat/McpExecution.tsx) folds those events into
its local state (`status`, `responseText`, `argumentsText`).

Both are embedded shallowly below: strings are Lean `String`s, JavaScript
timestamps are `Nat`, optional / possibly-`undefined` values are `Option`,
and the asynchronous collaborators (approval, the remote call, JSON parsing
of the arguments) are passed in as explicit parameters.
-/

/-- The four values of the `status` discriminant of `McpExecutionStatus`. -/
inductive StatusKind where
  | started
  | output
  | completed
  | error
  deriving DecidableEq, Repr

/-- The wire record posted as `mcpExecutionStatus`.  Fields that the source
only sets on some variants are `Option`s defaulting to `none`, matching the
optional fields of the TypeScript schema. -/
structure McpExecutionStatus where
  executionId : String
  status : StatusKind
  serverName : Option String := none
  toolName : Option String := none
  response : Option String := none
  error : Option String := none
  deriving DecidableEq, Repr

/-- A content item of a remote tool result: `{type:"text", text}` or
`{type:"resource", resource}` (the resource modelled as its list of
key/value fields, the value already serialized), or any other `type`
(which the source renders as the empty string). -/
inductive ContentItem where
  | text (t : String)
  | resource (fields : List (String × String))
  | other
  deriving DecidableEq, Repr

/-- The remote call's result `{content, isError}`. -/
structure ToolResult where
  content : List ContentItem
  isError : Bool
  deriving DecidableEq, Repr

/-- The parameters of the tool-use block: each may be absent. -/
structure ToolUseParams where
  server_name : Option String := none
  tool_name : Option String := none
  arguments : Option String := none
  deriving DecidableEq, Repr

/-- The tool-use block: its params and whether it is a partial (streaming)
block. -/
structure ToolUse where
  params : ToolUseParams
  partialFlag : Bool
  deriving DecidableEq, Repr

/-- JavaScript truthiness of a `string | undefined` value: `undefined` and
`""` are falsy. -/
def strPresent : Option String → Bool
  | none => false
  | some s => ¬ s = ""

/-- Decimal digits of `n`, most significant first, with explicit fuel so the
definition is structural (the fuel `n` itself always suffices).  Models
JavaScript's `Number.prototype.toString()` for a non-negative integer. -/
def toDecAux : Nat → Nat → List Char
  | 0, _ => []
  | fuel + 1, n => if n = 0 then [] else toDecAux fuel (n / 10) ++ [Nat.digitChar (n % 10)]

/-- The decimal string of a natural number, as `Number.prototype.toString()`
produces it. -/
def natToDec (n : Nat) : String :=
  if n = 0 then "0" else String.mk (toDecAux n n)

/-- `const executionId = cline.lastMessageTs?.toString() ?? Date.now().toString()`:
the last message timestamp rendered in decimal when set, otherwise the
current clock reading rendered in decimal. -/
def mintExecutionId (lastMessageTs : Option Nat) (now : Nat) : String :=
  match lastMessageTs with
  | some ts => natToDec ts
  | none => natToDec now

/-- Drop the `blob` property of a resource:
`const { blob: _, ...rest } = item.resource`. -/
def removeBlob (fields : List (String × String)) : List (String × String) :=
  fields.filter (fun kv => ¬ kv.1 = "blob")

/-- Models `JSON.stringify(obj, null, 2)` on an object given as its field
list (values pre-serialized). -/
def jsonStringifyPretty (fields : List (String × String)) : String :=
  if fields = [] then "\x7b\x7d"
  else
    "\x7b\n"
      ++ String.intercalate ",\n"
        (fields.map (fun kv => "  \x22" ++ kv.1 ++ "\x22: " ++ kv.2))
      ++ "\n\x7d"

/-- The per-item rendering inside `toolResult.content.map(...)`: a `text`
item yields its text, a `resource` item yields the pretty-printed resource
without its `blob` field, anything else yields `""`. -/
def renderContentItem : ContentItem → String
  | .text t => t
  | .resource fields => jsonStringifyPretty (removeBlob fields)
  | .other => ""

/-- `content.map(render).filter(Boolean).join("\n\n")`: the rendered items,
empty renderings dropped, joined with a blank line. -/
def joinedOutput (content : List ContentItem) : String :=
  String.intercalate "\n\n" ((content.map renderContentItem).filter (fun s => ¬ s = ""))

/-- How a run of `useMcpToolTool` ended, from the caller's point of view. -/
inductive Outcome where
  | partialReturn
  | missingParam (field : String)
  | invalidArguments
  | declined
  | executed (toolResultPretty : String)
  deriving DecidableEq, Repr

/-- Observable effects of one run: the `mcpExecutionStatus` events posted to
the webview in order, whether `callTool` was reached, and the outcome. -/
structure RunResult where
  events : List McpExecutionStatus
  remoteCalled : Bool
  outcome : Outcome
  deriving DecidableEq, Repr

/-- Shallow embedding of `useMcpToolTool`.  The asynchronous collaborators
are parameters: `argumentsParseOk` is whether `JSON.parse(mcp_arguments)`
succeeds (consulted only when `arguments` is truthy), `didApprove` is the
approval collaborator's answer, `toolResult` the remote call's result
(`none` when the call returns no result). -/
def useMcpToolTool (block : ToolUse) (lastMessageTs : Option Nat) (now : Nat)
    (argumentsParseOk : Bool) (didApprove : Bool)
    (toolResult : Option ToolResult) : RunResult :=
  if block.partialFlag then
    { events := [], remoteCalled := false, outcome := .partialReturn }
  else if strPresent block.params.server_name = false then
    { events := [], remoteCalled := false, outcome := .missingParam "server_name" }
  else if strPresent block.params.tool_name = false then
    { events := [], remoteCalled := false, outcome := .missingParam "tool_name" }
  else if strPresent block.params.arguments = true ∧ argumentsParseOk = false then
    { events := [], remoteCalled := false, outcome := .invalidArguments }
  else
    let executionId := mintExecutionId lastMessageTs now
    if didApprove = false then
      { events := [], remoteCalled := false, outcome := .declined }
    else
      let startedStatus : McpExecutionStatus :=
        { executionId := executionId, status := .started,
          serverName := block.params.server_name, toolName := block.params.tool_name }
      match toolResult with
      | some tr =>
        let outputText := joinedOutput tr.content
        let outputEvents : List McpExecutionStatus :=
          if ¬ tr.content = [] ∧ ¬ outputText = "" then
            [{ executionId := executionId, status := .output, response := some outputText }]
          else []
        let toolResultPretty :=
          if ¬ tr.content = [] ∧ ¬ outputText = "" then
            (if tr.isError then "Error:\n" else "") ++ outputText
          else "(No response)"
        let terminalStatus : McpExecutionStatus :=
          { executionId := executionId,
            status := if tr.isError then .error else .completed,
            response := some toolResultPretty,
            error := if tr.isError then some "Error executing MCP tool" else none }
        { events := startedStatus :: outputEvents ++ [terminalStatus],
          remoteCalled := true, outcome := .executed toolResultPretty }
      | none =>
        { events := [startedStatus,
            { executionId := executionId, status := .error,
              error := some "No response from MCP server" }],
          remoteCalled := true, outcome := .executed "(No response)" }

/-- Whether an event is terminal (`completed` or `error`). -/
def isTerminal (e : McpExecutionStatus) : Bool :=
  e.status = StatusKind.completed ∨ e.status = StatusKind.error

/-! ### The observer-side projector (`McpExecution.onMessage`) -/

/-- The component state that `onMessage` updates: the last matching event
(`status`), the accumulated response text and the arguments text. -/
structure ViewState where
  status : Option McpExecutionStatus := none
  responseText : String := ""
  argumentsText : String := ""
  deriving DecidableEq, Repr

/-- Truthiness of the optional `response` field of an event (`data.response`
in the guard conditions): absent or empty is falsy. -/
def respTruthy : Option String → Bool
  | none => false
  | some s => ¬ s = ""

/-- One step of `McpExecution.onMessage` on an already schema-valid event.
For a matching `executionId` the component stores the event in `status`;
on a truthy-`response` `output` event it appends the response to
`responseText`, on a truthy-`response` `completed` event it replaces
`responseText`; the `argumentsText` update re-assigns the pre-event
`responseText` only when `argumentsText` already equals it.  Events for
other execution ids leave the state unchanged. -/
def applyStatus (executionId : String) (isArguments : Bool)
    (s : ViewState) (data : McpExecutionStatus) : ViewState :=
  if data.executionId = executionId then
    if data.status = .output ∧ respTruthy data.response = true then
      { status := some data,
        responseText := s.responseText ++ data.response.getD "",
        argumentsText :=
          if isArguments = true ∧ s.argumentsText = s.responseText then s.responseText
          else s.argumentsText }
    else if data.status = .completed ∧ respTruthy data.response = true then
      { status := some data,
        responseText := data.response.getD "",
        argumentsText :=
          if isArguments = true ∧ s.argumentsText = s.responseText then s.responseText
          else s.argumentsText }
    else
      { s with status := some data }
  else s

/-- The phase label the component renders from its `status` state:
"Running" for `started`, "Completed" for `completed`, "Error" otherwise,
and no label while no event has been seen. -/
def ViewState.phase (s : ViewState) : Option String :=
  match s.status with
  | none => none
  | some st =>
    some (match st.status with
      | .started => "Running"
      | .completed => "Completed"
      | _ => "Error")

/-- The error message the component renders: present exactly when the last
event has status `error` and a truthy `error` field. -/
def ViewState.shownError (s : ViewState) : Option String :=
  match s.status with
  | none => none
  | some st =>
    if st.status = .error ∧ respTruthy st.error = true then st.error else none

/-! ### Decimal rendering is injective

`natToDec` (the model of `Number.prototype.toString()`) has a left inverse,
so distinct timestamps always yield distinct executionId strings; collisions
can only come from equal timestamps. -/

/-- Inverse of `Nat.digitChar` on the decimal digits. -/
def charToDigit (c : Char) : Nat := c.toNat - 48

/-- Read a most-significant-first decimal digit string back into a number. -/
def decodeDec (l : List Char) : Nat :=
  l.foldl (fun acc c => acc * 10 + charToDigit c) 0

theorem charToDigit_digitChar {d : Nat} (h : d < 10) :
    charToDigit (Nat.digitChar d) = d := by
  interval_cases d <;> rfl

theorem decodeDec_append (l : List Char) (c : Char) :
    decodeDec (l ++ [c]) = decodeDec l * 10 + charToDigit c := by
  simp [decodeDec, List.foldl_append]

theorem decodeDec_toDecAux : ∀ fuel n : Nat, n ≤ fuel → decodeDec (toDecAux fuel n) = n := by
  intro fuel
  induction fuel with
  | zero =>
    intro n hn
    interval_cases n
    rfl
  | succ fuel ih =>
    intro n hn
    by_cases h0 : n = 0
    · subst h0; rfl
    · have hlt : n / 10 < n := Nat.div_lt_self (Nat.pos_of_ne_zero h0) (by norm_num)
      have hdiv : n / 10 ≤ fuel := by omega
      simp only [toDecAux, if_neg h0]
      rw [decodeDec_append, ih _ hdiv,
        charToDigit_digitChar (Nat.mod_lt _ (by norm_num))]
      omega

theorem decodeDec_natToDec (n : Nat) : decodeDec (natToDec n).data = n := by
  by_cases h : n = 0
  · subst h; rfl
  · simp only [natToDec, if_neg h]
    exact decodeDec_toDecAux n n le_rfl

theorem natToDec_injective : Function.Injective natToDec := by
  intro a b h
  have h2 := congrArg (fun s => decodeDec s.data) h
  simpa [decodeDec_natToDec] using h2

theorem mintExecutionId_eq_natToDec (l : Option Nat) (n : Nat) :
    mintExecutionId l n = natToDec (l.getD n) := by
  cases l <;> rfl

/-- A conditional re-assignment of the form
`if c ∧ a = b then b else a` never changes the value `a`
(the shape of the `argumentsText` update in `onMessage`). -/
theorem ite_and_eq_self {α : Type} [DecidableEq α] {c : Prop} [Decidable c] (a b : α) :
    (if c ∧ a = b then b else a) = a := by
  split_ifs with h
  · exact h.2.symm
  · rfl

/-- `onMessage` never changes `argumentsText`: its only assignment to it
re-assigns the value it already holds. -/
theorem applyStatus_argumentsText (id : String) (isArgs : Bool)
    (s : ViewState) (e : McpExecutionStatus) :
    (applyStatus id isArgs s e).argumentsText = s.argumentsText := by
  unfold applyStatus
  split_ifs <;> simp_all

/-! ### Claim theorems -/

/-- A sample valid tool-use block used by the concrete witnesses. -/
def sampleBlock : ToolUse :=
  { params := { server_name := some "s", tool_name := some "t" }, partialFlag := false }

/-- C1 (counterexample): the executionId is minted from `lastMessageTs`
(falling back to the clock), so two distinct invocation attempts — here
minted at distinct clock readings 10 and 20, with the same last message
timestamp — receive the same executionId string.  The executionId space is
therefore not collision-free. -/
theorem mint_collision_same_lastMessageTs :
    mintExecutionId (some 5) 10 = mintExecutionId (some 5) 20 ∧ (10 : Nat) ≠ 20 :=
  ⟨rfl, by decide⟩

/-- C1 (amended): executionIds of two attempts are distinct whenever their
effective timestamps (`lastMessageTs` when set, otherwise the mint-time
clock reading) are distinct numbers; collisions occur exactly on equal
timestamps. -/
theorem mint_injective_on_effective_timestamps
    (l₁ l₂ : Option Nat) (n₁ n₂ : Nat) (h : l₁.getD n₁ ≠ l₂.getD n₂) :
    mintExecutionId l₁ n₁ ≠ mintExecutionId l₂ n₂ := by
  rw [mintExecutionId_eq_natToDec, mintExecutionId_eq_natToDec]
  exact fun hc => h (natToDec_injective hc)

/-- C1 (witness for the amended theorem) at timestamps 5 and 6. -/
theorem mint_injective_on_effective_timestamps_witness :
    mintExecutionId (some 5) 0 ≠ mintExecutionId (some 6) 0 :=
  mint_injective_on_effective_timestamps (some 5) (some 6) 0 0 (by decide)

/-- C2: a `resource` content item is rendered as the pretty-printed
resource with its `blob` field removed: the rendering is exactly
`jsonStringifyPretty` of `removeBlob`, no field named `blob` survives
`removeBlob`, and every non-`blob` field does survive it. -/
theorem resource_rendering_strips_blob (fields : List (String × String)) :
    renderContentItem (.resource fields) = jsonStringifyPretty (removeBlob fields)
    ∧ (∀ kv ∈ removeBlob fields, kv.1 ≠ "blob")
    ∧ (∀ kv ∈ fields, kv.1 ≠ "blob" → kv ∈ removeBlob fields) := by
  refine ⟨rfl, ?_, ?_⟩
  · intro kv hkv
    have h := List.mem_filter.mp hkv
    simpa using h.2
  · intro kv hkv hne
    exact List.mem_filter.mpr ⟨hkv, by simpa using hne⟩

/-- C2 (witness) on a resource with a `uri` field and a `blob` field. -/
theorem resource_rendering_strips_blob_witness :
    renderContentItem (.resource [("uri", "u"), ("blob", "b")]) =
      jsonStringifyPretty [("uri", "u")]
    ∧ ("uri", "u") ∈ removeBlob [("uri", "u"), ("blob", "b")] :=
  ⟨(resource_rendering_strips_blob [("uri", "u"), ("blob", "b")]).1,
   (resource_rendering_strips_blob [("uri", "u"), ("blob", "b")]).2.2
     ("uri", "u") (by decide) (by decide)⟩

/-- C8: when the approval collaborator declines a valid request, the run
emits no status events, never reaches the remote call, and ends silently. -/
theorem declined_run_is_silent (block : ToolUse) (lastMessageTs : Option Nat)
    (now : Nat) (argumentsParseOk : Bool) (toolResult : Option ToolResult)
    (hp : block.partialFlag = false)
    (hs : strPresent block.params.server_name = true)
    (ht : strPresent block.params.tool_name = true)
    (ha : strPresent block.params.arguments = false ∨ argumentsParseOk = true) :
    (useMcpToolTool block lastMessageTs now argumentsParseOk false toolResult).events = []
    ∧ (useMcpToolTool block lastMessageTs now argumentsParseOk false toolResult).remoteCalled
        = false
    ∧ (useMcpToolTool block lastMessageTs now argumentsParseOk false toolResult).outcome
        = .declined := by
  rcases ha with ha | ha <;> simp [useMcpToolTool, hp, hs, ht, ha]

/-- C8 (witness) on the sample block with a remote result standing by that
is never requested. -/
theorem declined_run_is_silent_witness :
    (useMcpToolTool sampleBlock none 0 true false
      (some { content := [.text "A"], isError := false })).events = []
    ∧ (useMcpToolTool sampleBlock none 0 true false
        (some { content := [.text "A"], isError := false })).remoteCalled = false
    ∧ (useMcpToolTool sampleBlock none 0 true false
        (some { content := [.text "A"], isError := false })).outcome = .declined :=
  declined_run_is_silent sampleBlock none 0 true
    (some { content := [.text "A"], isError := false }) rfl (by decide) (by decide)
    (Or.inl rfl)

/-- C9: a request whose `server_name` or `tool_name` is absent or empty
fails with the missing-parameter outcome naming a missing field, emits no
status events and never reaches the remote call. -/
theorem missing_param_preflight (block : ToolUse) (lastMessageTs : Option Nat)
    (now : Nat) (argumentsParseOk didApprove : Bool) (toolResult : Option ToolResult)
    (hp : block.partialFlag = false)
    (h : strPresent block.params.server_name = false
        ∨ strPresent block.params.tool_name = false) :
    (useMcpToolTool block lastMessageTs now argumentsParseOk didApprove toolResult).outcome
      = .missingParam
          (if strPresent block.params.server_name then "tool_name" else "server_name")
    ∧ (useMcpToolTool block lastMessageTs now argumentsParseOk didApprove toolResult).events
        = []
    ∧ (useMcpToolTool block lastMessageTs now argumentsParseOk didApprove
        toolResult).remoteCalled = false := by
  by_cases hs : strPresent block.params.server_name = false
  · simp [useMcpToolTool, hp, hs]
  · have hs' : strPresent block.params.server_name = true := by
      simpa using hs
    rcases h with h | h
    · exact absurd h hs
    · simp [useMcpToolTool, hp, hs', h]

/-- C9 (witness) on a request with an empty `server_name`. -/
theorem missing_param_preflight_witness :
    (useMcpToolTool
      { params := { server_name := some "", tool_name := some "t" }, partialFlag := false }
      none 0 true true none).outcome = .missingParam "server_name"
    ∧ (useMcpToolTool
        { params := { server_name := some "", tool_name := some "t" }, partialFlag := false }
        none 0 true true none).events = []
    ∧ (useMcpToolTool
        { params := { server_name := some "", tool_name := some "t" }, partialFlag := false }
        none 0 true true none).remoteCalled = false := by
  have h := missing_param_preflight
    { params := { server_name := some "", tool_name := some "t" }, partialFlag := false }
    none 0 true true none rfl (Or.inl (by decide))
  simpa using h

/-- C3 (counterexample): on a valid approved run whose remote call returns
no result, the single terminal event carries the error message
`"No response from MCP server"`, which is not the string
`"no response from remote server"` stated by the claim. -/
theorem no_result_message_differs :
    ((useMcpToolTool sampleBlock none 0 true true none).events.filter isTerminal).map
        (fun e => e.error) = [some "No response from MCP server"]
    ∧ "No response from MCP server" ≠ "no response from remote server" := by
  constructor
  · decide
  · decide

/-- C3 (amended): on a valid approved run whose remote call returns no
result, the emitted events are exactly one `started` event followed by one
terminal event, and that terminal event has status `error` with error
message `"No response from MCP server"`. -/
theorem no_result_single_error_event (block : ToolUse) (lastMessageTs : Option Nat)
    (now : Nat) (argumentsParseOk : Bool)
    (hp : block.partialFlag = false)
    (hs : strPresent block.params.server_name = true)
    (ht : strPresent block.params.tool_name = true)
    (ha : strPresent block.params.arguments = false ∨ argumentsParseOk = true) :
    (useMcpToolTool block lastMessageTs now argumentsParseOk true none).events =
      [{ executionId := mintExecutionId lastMessageTs now, status := .started,
         serverName := block.params.server_name, toolName := block.params.tool_name },
       { executionId := mintExecutionId lastMessageTs now, status := .error,
         error := some "No response from MCP server" }]
    ∧ (useMcpToolTool block lastMessageTs now argumentsParseOk true none).events.filter
        isTerminal =
      [{ executionId := mintExecutionId lastMessageTs now, status := .error,
         error := some "No response from MCP server" }] := by
  rcases ha with ha | ha <;> simp [useMcpToolTool, hp, hs, ht, ha, isTerminal]

/-- C3 (witness for the amended theorem) on the sample block. -/
theorem no_result_single_error_event_witness :
    (useMcpToolTool sampleBlock none 0 true true none).events =
      [{ executionId := "0", status := .started,
         serverName := some "s", toolName := some "t" },
       { executionId := "0", status := .error,
         error := some "No response from MCP server" }]
    ∧ (useMcpToolTool sampleBlock none 0 true true none).events.filter isTerminal =
      [{ executionId := "0", status := .error,
         error := some "No response from MCP server" }] :=
  no_result_single_error_event sampleBlock none 0 true rfl (by decide) (by decide)
    (Or.inl rfl)

/-- C7: on a valid approved run whose remote call succeeds with content
whose blank-line join of the non-empty renderings is non-empty, the events
are exactly `started`, one `output` carrying the join, and `completed`
carrying the same join as its response. -/
theorem success_events_carry_join (block : ToolUse) (lastMessageTs : Option Nat)
    (now : Nat) (argumentsParseOk : Bool) (content : List ContentItem)
    (hp : block.partialFlag = false)
    (hs : strPresent block.params.server_name = true)
    (ht : strPresent block.params.tool_name = true)
    (ha : strPresent block.params.arguments = false ∨ argumentsParseOk = true)
    (hout : ¬ joinedOutput content = "") :
    (useMcpToolTool block lastMessageTs now argumentsParseOk true
        (some { content := content, isError := false })).events =
      [{ executionId := mintExecutionId lastMessageTs now, status := .started,
         serverName := block.params.server_name, toolName := block.params.tool_name },
       { executionId := mintExecutionId lastMessageTs now, status := .output,
         response := some (joinedOutput content) },
       { executionId := mintExecutionId lastMessageTs now, status := .completed,
         response := some (joinedOutput content), error := none }] := by
  have hc : ¬ content = [] := by
    rintro rfl
    exact hout rfl
  rcases ha with ha | ha <;>
    simp [useMcpToolTool, hp, hs, ht, ha, hc, hout]

/-- C7 (witness): for content `[text "A", text "B"]` the join is
`"A\n\nB"` and the run emits `started`, `output "A\n\nB"`,
`completed "A\n\nB"`. -/
theorem success_events_carry_join_witness :
    joinedOutput [.text "A", .text "B"] = "A\n\nB"
    ∧ (useMcpToolTool sampleBlock none 0 true true
        (some { content := [.text "A", .text "B"], isError := false })).events =
      [{ executionId := "0", status := .started,
         serverName := some "s", toolName := some "t" },
       { executionId := "0", status := .output, response := some "A\n\nB" },
       { executionId := "0", status := .completed, response := some "A\n\nB",
         error := none }] :=
  ⟨by decide,
   success_events_carry_join sampleBlock none 0 true [.text "A", .text "B"] rfl
     (by decide) (by decide) (Or.inl rfl) (by decide)⟩

/-- C10: on a valid approved run whose remote call reports `isError`, the
single terminal event is an `error` event whose response is
`"Error:\n"` prepended to the blank-line join when that join is non-empty,
and the literal `"(No response)"` when no non-empty content text was
produced; its error message is `"Error executing MCP tool"`. -/
theorem error_result_response_prefix (block : ToolUse) (lastMessageTs : Option Nat)
    (now : Nat) (argumentsParseOk : Bool) (tr : ToolResult)
    (hp : block.partialFlag = false)
    (hs : strPresent block.params.server_name = true)
    (ht : strPresent block.params.tool_name = true)
    (ha : strPresent block.params.arguments = false ∨ argumentsParseOk = true)
    (he : tr.isError = true) :
    (useMcpToolTool block lastMessageTs now argumentsParseOk true (some tr)).events.filter
        isTerminal =
      [{ executionId := mintExecutionId lastMessageTs now, status := .error,
         response := some (if joinedOutput tr.content = "" then "(No response)"
                           else "Error:\n" ++ joinedOutput tr.content),
         error := some "Error executing MCP tool" }] := by
  by_cases hout : joinedOutput tr.content = ""
  · rcases ha with ha | ha <;>
      simp [useMcpToolTool, hp, hs, ht, ha, he, hout, isTerminal]
  · have hc : ¬ tr.content = [] := by
      rintro hnil
      exact hout (by rw [hnil]; decide)
    rcases ha with ha | ha <;>
      simp [useMcpToolTool, hp, hs, ht, ha, he, hout, hc, isTerminal]

/-- C10 (witness): an erroring result with content `[text "boom"]` yields
the terminal error event with response `"Error:\nboom"`. -/
theorem error_result_response_prefix_witness :
    (useMcpToolTool sampleBlock none 0 true true
        (some { content := [.text "boom"], isError := true })).events.filter isTerminal =
      [{ executionId := "0", status := .error, response := some "Error:\nboom",
         error := some "Error executing MCP tool" }] := by
  have h := error_result_response_prefix sampleBlock none 0 true
    { content := [.text "boom"], isError := true } rfl (by decide) (by decide)
    (Or.inl rfl) rfl
  simpa using h

/-- C4 (counterexample): applying an `error` event that carries a response
does not replace the accumulated response: the view still shows the phase
`Error`, but `responseText` keeps its previous value `"old"` instead of
becoming the event's `"new"`. -/
theorem error_event_does_not_replace_response :
    (applyStatus "x" false { status := none, responseText := "old", argumentsText := "" }
      { executionId := "x", status := .error, response := some "new",
        error := some "boom" }).responseText = "old"
    ∧ (applyStatus "x" false { status := none, responseText := "old", argumentsText := "" }
        { executionId := "x", status := .error, response := some "new",
          error := some "boom" }).phase = some "Error"
    ∧ "old" ≠ "new" := by
  refine ⟨by decide, by decide, by decide⟩

/-- C4 (amended): an `error` event for the projector's executionId stores
the event (so the rendered phase is `Error` and the rendered error message
is the event's truthy error field) and leaves the accumulated response
unchanged, even when the event carries a response. -/
theorem error_event_sets_status_keeps_response (id : String) (isArgs : Bool)
    (s : ViewState) (e : McpExecutionStatus)
    (hid : e.executionId = id) (he : e.status = .error) :
    applyStatus id isArgs s e = { s with status := some e }
    ∧ (applyStatus id isArgs s e).phase = some "Error"
    ∧ (applyStatus id isArgs s e).shownError
        = (if respTruthy e.error = true then e.error else none)
    ∧ (applyStatus id isArgs s e).responseText = s.responseText := by
  have h1 : applyStatus id isArgs s e = { s with status := some e } := by
    simp [applyStatus, hid, he]
  refine ⟨h1, ?_, ?_, ?_⟩
  · rw [h1]
    simp [ViewState.phase, he]
  · rw [h1]
    simp [ViewState.shownError, he]
  · rw [h1]

/-- A sample view with accumulated response `"old"`, for the witnesses. -/
def viewOld : ViewState := { status := none, responseText := "old", argumentsText := "" }

/-- A sample `error` event carrying a response, for the witnesses. -/
def errorEvt : McpExecutionStatus :=
  { executionId := "x", status := .error, response := some "new", error := some "boom" }

/-- C4 (witness for the amended theorem) at a concrete error event carrying
a response. -/
theorem error_event_sets_status_keeps_response_witness :
    applyStatus "x" false viewOld errorEvt
      = { status := some errorEvt, responseText := "old", argumentsText := "" }
    ∧ (applyStatus "x" false viewOld errorEvt).phase = some "Error"
    ∧ (applyStatus "x" false viewOld errorEvt).shownError
        = (if respTruthy errorEvt.error = true then errorEvt.error else none)
    ∧ (applyStatus "x" false viewOld errorEvt).responseText = viewOld.responseText :=
  error_event_sets_status_keeps_response "x" false viewOld errorEvt rfl rfl

/-- C5 (counterexample): a `completed` event whose response is present but
empty does not replace the accumulated response: with accumulated `"A"` and
a `completed` event carrying response `""`, the accumulated response stays
`"A"` instead of becoming `""`. -/
theorem completed_empty_response_not_replaced :
    (applyStatus "x" false { status := none, responseText := "A", argumentsText := "" }
      { executionId := "x", status := .completed, response := some "" }).responseText = "A"
    ∧ "A" ≠ "" := by
  refine ⟨by decide, by decide⟩

/-- C5 (amended): for events of the projector's executionId, an `output`
event carrying a response appends it to the accumulated response; a
`completed` event carrying a non-empty response replaces the accumulated
response with it; a `completed` event with a falsy (absent or empty)
response leaves the accumulated response unchanged. -/
theorem output_appends_completed_replaces (id : String) (isArgs : Bool)
    (s : ViewState) (e : McpExecutionStatus) (hid : e.executionId = id) :
    (∀ r, e.status = .output → e.response = some r →
        (applyStatus id isArgs s e).responseText = s.responseText ++ r)
    ∧ (∀ r, e.status = .completed → e.response = some r → r ≠ "" →
        (applyStatus id isArgs s e).responseText = r)
    ∧ (e.status = .completed → respTruthy e.response = false →
        (applyStatus id isArgs s e).responseText = s.responseText) := by
  refine ⟨?_, ?_, ?_⟩
  · intro r ho hr
    by_cases hre : r = ""
    · subst hre
      simp [applyStatus, hid, ho, hr, respTruthy]
    · simp [applyStatus, hid, ho, hr, respTruthy, hre]
  · intro r hc hr hre
    simp [applyStatus, hid, hc, hr, respTruthy, hre]
  · intro hc hr
    simp [applyStatus, hid, hc, hr]

/-- C5 (witness for the amended theorem): an `output "B"` event on
accumulated `"A"` yields `"A" ++ "B"`. -/
theorem output_appends_completed_replaces_witness :
    (applyStatus "x" false { status := none, responseText := "A", argumentsText := "" }
      { executionId := "x", status := .output, response := some "B" }).responseText
      = "A" ++ "B" :=
  (output_appends_completed_replaces "x" false
    { status := none, responseText := "A", argumentsText := "" }
    { executionId := "x", status := .output, response := some "B" } rfl).1 "B" rfl rfl

/-- C6: the projector's fold is idempotent on terminal events: applying the
same `completed` or `error` event twice yields the same view as applying it
once. -/
theorem terminal_event_idempotent (id : String) (isArgs : Bool) (s : ViewState)
    (e : McpExecutionStatus) (h : e.status = .completed ∨ e.status = .error) :
    applyStatus id isArgs (applyStatus id isArgs s e) e = applyStatus id isArgs s e := by
  by_cases hid : e.executionId = id
  · rcases h with hc | he
    · by_cases hr : respTruthy e.response = true
      · simp [applyStatus, hid, hc, hr, ite_and_eq_self]
      · simp [applyStatus, hid, hc, hr]
    · simp [applyStatus, hid, he]
  · simp [applyStatus, hid]

/-- C6 (witness) at a concrete `completed` event. -/
theorem terminal_event_idempotent_witness :
    applyStatus "x" false
      (applyStatus "x" false
        { status := none, responseText := "A", argumentsText := "" }
        { executionId := "x", status := .completed, response := some "done" })
      { executionId := "x", status := .completed, response := some "done" }
      = applyStatus "x" false
          { status := none, responseText := "A", argumentsText := "" }
          { executionId := "x", status := .completed, response := some "done" } :=
  terminal_event_idempotent "x" false
    { status := none, responseText := "A", argumentsText := "" }
    { executionId := "x", status := .completed, response := some "done" }
    (Or.inl rfl)
